import Mathlib

/-!
Verification of the gemini-twitter-mirror core (src/main.go).

Shallow embedding of the two core components:

* `TweetCache` — the cached tweet list plus last-refresh timestamp, with its
  read accessor `GetOnPosition` and the background refresh loop `Refresher`
  (modelled one iteration at a time by `refreshStep`).
* `RequestHandler` — the request-to-response mapping `Handle` with its
  rendering helpers (`getHeader`, `getFooter`, `formatTimeline`,
  `formatTweet`, `wrapBody`, `showTweet`, `showTimeline`).

Modelling conventions:

* Go strings are `String`, Go slices are `List`, `time.Time` /
  `time.Duration` are `Nat` nanoseconds (the internal Go duration unit).
* A Go runtime panic (out-of-range slice index) is modelled explicitly:
  `GetResult.crash` for `GetOnPosition`, and `none` for the `Option`-valued
  render/handler functions through which a panic would propagate.
* The filesystem read of the configured ASCII-logo file is an input
  `logoContent : Option String` (`none` when the file is absent).
* The query parameters of a request form an unordered Go map; the model takes the
  key sequence in the iteration order the map would yield, so
  `getFirstKeyFromURL` returns the head of that list.
-/

/-- Embeds `twitter.User` — only the `Name` field is read by the core. -/
structure TwitterUser where
  name : String
deriving DecidableEq, Repr

/-- Embeds `twitter.Tweet` — only `Text` and `User.Name` are read by the core. -/
structure Tweet where
  text : String
  user : TwitterUser
deriving DecidableEq, Repr

/-- Embeds `TweetCache` (src/main.go:59-63): the cached tweet slice and the
`LastRefresh` timestamp (nanoseconds). -/
structure TweetCache where
  tweets : List Tweet
  lastRefresh : Nat
deriving DecidableEq, Repr

/-- Outcome of `TweetCache.GetOnPosition`: the Go function returns
`(string, error)`, and additionally can hit a runtime panic on a negative
index, modelled as `crash`. -/
inductive GetResult where
  | ok (s : String)
  | err (msg : String)
  | crash
deriving DecidableEq, Repr

/-- Go slice indexing `xs[i]` with an `int` index: yields the element when
`0 ≤ i < len(xs)`, otherwise panics (`none`). -/
def goIndex (xs : List Tweet) (i : Int) : Option Tweet :=
  if 0 ≤ i then xs.get? i.toNat else none

/-- Embeds `TweetCache.GetOnPosition` (src/main.go:84-90):

    if len(tc.Tweets) == 0 || len(tc.Tweets)-1 < pos {
        return "", errors.New("twit not available")
    }
    tweet := tc.Tweets[pos]
    return tweet.Text + "\n\n" + tweet.User.Name, nil

`pos` is a Go `int`, hence an `Int` here: a negative `pos` passes the guard
whenever the slice is non-empty and then panics at `tc.Tweets[pos]`. -/
def TweetCache.GetOnPosition (tc : TweetCache) (pos : Int) : GetResult :=
  if tc.tweets.length = 0 ∨ (tc.tweets.length : Int) - 1 < pos then
    .err "twit not available"
  else
    match goIndex tc.tweets pos with
    | some tweet => .ok (tweet.text ++ "\n\n" ++ tweet.user.name)
    | none => .crash

/-- Result of one call to the external fetch collaborator
(`tc.getTweets()`, src/main.go:92-109): either an error or a tweet list. -/
inductive FetchResult where
  | fetchErr
  | fetchOk (tweets : List Tweet)
deriving DecidableEq, Repr

/-- What one iteration of `TweetCache.Refresher` (src/main.go:65-82) does
after (or instead of) its fetch:

* `spin` — `time.Since(tc.LastRefresh) < 15min`: the loop hits `continue`
  immediately, with no fetch and no sleep;
* `sleepCooldown` — the fetch returned an error: `time.Sleep(5 * time.Minute)`
  runs before the next iteration;
* `skipShort` — the fetch returned fewer tweets than cached: `continue`,
  the result is discarded;
* `commit` — the snapshot is replaced and `LastRefresh` set to now. -/
inductive RefreshAction where
  | spin
  | sleepCooldown
  | skipShort
  | commit
deriving DecidableEq, Repr

/-- One nanosecond-denominated minute (`time.Minute`). -/
def minuteNs : Nat := 60 * 1000000000

/-- The refresh interval `time.Minute * 15` (src/main.go:67). -/
def fifteenMinutes : Nat := 15 * minuteNs

/-- The error cooldown `time.Minute * 5` (src/main.go:74). -/
def fiveMinutes : Nat := 5 * minuteNs

/-- How long the iteration pauses before the loop runs again: only the
fetch-error branch executes a `time.Sleep`; every other branch returns to
the top of the `for` loop immediately. -/
def RefreshAction.pause : RefreshAction → Nat
  | .sleepCooldown => fiveMinutes
  | _ => 0

/-- Whether the iteration called the external fetch collaborator: the
`spin` branch `continue`s before `tc.getTweets()` is reached. -/
def RefreshAction.fetchAttempted : RefreshAction → Bool
  | .spin => false
  | _ => true

/-- One iteration of `TweetCache.Refresher` (src/main.go:65-82).
`now` is the current time; `time.Since(tc.LastRefresh)` is
`now - tc.lastRefresh`. `fetch` is the result `tc.getTweets()` would
return were it called (unused on the `spin` branch, where no fetch
happens). -/
def refreshStep (tc : TweetCache) (now : Nat) (fetch : FetchResult) :
    TweetCache × RefreshAction :=
  if now - tc.lastRefresh < fifteenMinutes then
    (tc, .spin)
  else
    match fetch with
    | .fetchErr => (tc, .sleepCooldown)
    | .fetchOk tweets =>
      if tweets.length < tc.tweets.length then
        (tc, .skipShort)
      else
        ({ tweets := tweets, lastRefresh := now }, .commit)

/-- The refresh loop run over a finite schedule of iterations, each given
by its wall-clock time and the fetch result available at that time. -/
def runRefresher (tc : TweetCache) (events : List (Nat × FetchResult)) :
    TweetCache :=
  events.foldl (fun st ev => (refreshStep st ev.1 ev.2).1) tc

/-- Embeds `RequestHandler` (src/main.go:111-114) together with the parts of the
environment it reads: the cache, the content of the configured logo file
(`none` when absent), and `Config.UI.Delimiter`. -/
structure RequestHandler where
  tweetCache : TweetCache
  logoContent : Option String
  delimiter : String
deriving DecidableEq, Repr

/-- Embeds `RequestHandler.getFooter` (src/main.go:116-121). -/
def RequestHandler.getFooter (_rh : RequestHandler) : String :=
  "\n\n=> https://github.com/vegasq/gemini-twitter-mirror Fork me on GitHub\n"

/-- The fixed menu part of the header (src/main.go:133-139). -/
def menuLinks : String :=
  "\n\n=> / Last tweet\n=> /timeline Timeline\n=> /select_tweet Tweet selector\n\n"

/-- Embeds `RequestHandler.getHeader` (src/main.go:123-140). When the logo file is
absent, `os.Open` returns a `*PathError`, so the `err == os.ErrNotExist`
comparison is false and the code falls into the copy branch with a nil
file handle; `io.Copy` then fails immediately (its error is discarded) and
the string builder stays empty, so the logo renders as `""`. When the file
exists, its content is copied. Both paths are captured by matching on
`logoContent`. -/
def RequestHandler.getHeader (rh : RequestHandler) : String :=
  let logo : String :=
    match rh.logoContent with
    | some content => content
    | none => ""
  logo ++ menuLinks

/-- One iteration of the `for i := 0; i < 10; i++` loop of
`RequestHandler.formatTimeline` (src/main.go:142-153): skip the position
on error, otherwise append `fmt.Sprintf("\n\n%s\n\n%s", tw, delimiter)`.
A crash would propagate (`none`), though it never occurs for these
non-negative indices. -/
def timelineStep (tc : TweetCache) (delim : String) (acc : Option String)
    (i : Nat) : Option String :=
  match acc with
  | none => none
  | some s =>
    match tc.GetOnPosition (i : Int) with
    | .ok tw => some (s ++ ("\n\n" ++ tw ++ "\n\n" ++ delim))
    | .err _ => some s
    | .crash => none

/-- Embeds `RequestHandler.formatTimeline` (src/main.go:142-153). -/
def RequestHandler.formatTimeline (rh : RequestHandler) : Option String :=
  (List.range 10).foldl (timelineStep rh.tweetCache rh.delimiter) (some "")

/-- Embeds `RequestHandler.formatTweet` (src/main.go:155-161): empty string on
error, `fmt.Sprintf("\n\n%s", tw)` on success; a panic propagates. -/
def RequestHandler.formatTweet (rh : RequestHandler) (pos : Int) :
    Option String :=
  match rh.tweetCache.GetOnPosition pos with
  | .ok tw => some ("\n\n" ++ tw)
  | .err _ => some ""
  | .crash => none

/-- Embeds `RequestHandler.wrapBody` (src/main.go:163-165). -/
def RequestHandler.wrapBody (rh : RequestHandler) (body : String) : String :=
  rh.getHeader ++ body ++ rh.getFooter

/-- Embeds `gemini.Response`: status code, meta string, optional body (the Go
code passes either a reader over the rendered page or nil). -/
structure Response where
  status : Nat
  meta : String
  body : Option String
deriving DecidableEq, Repr

/-- Embeds `RequestHandler.showTweet` (src/main.go:167-170): a success response
whose body is the wrapped single-tweet page; `none` when the rendering
panicked. -/
def RequestHandler.showTweet (rh : RequestHandler) (offset : Int) :
    Option Response :=
  match rh.formatTweet offset with
  | some content => some ⟨20, "text/gemini", some (rh.wrapBody content)⟩
  | none => none

/-- Embeds `RequestHandler.showTimeline` (src/main.go:172-175). -/
def RequestHandler.showTimeline (rh : RequestHandler) : Option Response :=
  match rh.formatTimeline with
  | some content => some ⟨20, "text/gemini", some (rh.wrapBody content)⟩
  | none => none

/-- Embeds `gemini.Request`, reduced to what `Handle` reads: the URL path and the
query-parameter keys in the order the Go map iteration yields them. -/
structure Request where
  path : String
  queryKeys : List String
deriving DecidableEq, Repr

/-- Embeds `getFirstKeyFromURL` (src/main.go:177-183): the first key the map
iteration yields, or `""` for an empty query. -/
def getFirstKeyFromURL (queryKeys : List String) : String :=
  match queryKeys with
  | [] => ""
  | k :: _ => k

/-- Embeds `strconv.Atoi`: an optional sign followed by one or more decimal
digits, rejecting anything else; a syntactically valid number outside the
64-bit `int` range yields `ErrRange`, so `Atoi` reports an error (`none`)
for it as well. -/
def goAtoi (s : String) : Option Int :=
  let parts : Bool × List Char :=
    match s.toList with
    | '-' :: rest => (true, rest)
    | '+' :: rest => (false, rest)
    | cs => (false, cs)
  if parts.2 = [] ∨ ¬ parts.2.all Char.isDigit then
    none
  else
    let mag : Int := (parts.2.foldl (fun a c => a * 10 + (c.toNat - 48)) 0 : Nat)
    let v : Int := if parts.1 then -mag else mag
    if v < -(2 ^ 63) ∨ (2 ^ 63 : Int) - 1 < v then none else some v

/-- Embeds `RequestHandler.Handle` (src/main.go:185-201). `none` models a panic
escaping the handler (no response is written). -/
def RequestHandler.Handle (rh : RequestHandler) (r : Request) :
    Option Response :=
  if r.path = "/" then
    rh.showTweet 0
  else if r.path = "/timeline" then
    rh.showTimeline
  else if r.path = "/select_tweet" ∧ r.queryKeys = [] then
    some ⟨10, "Get tweet offset. f.e. 5", none⟩
  else if r.path = "/select_tweet" then
    match goAtoi (getFirstKeyFromURL r.queryKeys) with
    | none => some ⟨42, "Failed to parse input. Please use numbers.", none⟩
    | some offset => rh.showTweet offset
  else
    some ⟨51, "Unknown location", none⟩

/-- The chunk appended to the timeline for one rendered tweet: the
`GetOnPosition` text wrapped as `"\n\n" ++ tweet ++ "\n\n" ++ delimiter`. -/
def renderEntry (delim : String) (tw : Tweet) : String :=
  "\n\n" ++ (tw.text ++ "\n\n" ++ tw.user.name) ++ "\n\n" ++ delim

/-- Sample data for concrete evaluations. -/
def sampleTweet : Tweet := ⟨"hello world", ⟨"alice"⟩⟩

/-- A cache holding exactly one tweet, never refreshed. -/
def tcOne : TweetCache := ⟨[sampleTweet], 0⟩

/-- A handler over the one-tweet cache, with no logo file. -/
def rhOne : RequestHandler := ⟨tcOne, none, "---"⟩

/-- A handler over the empty cache, with no logo file. -/
def rhEmpty : RequestHandler := ⟨⟨[], 0⟩, none, "---"⟩

/-- Evaluating `GetOnPosition` at an in-range natural index returns the tweet text
and author name. -/
theorem getOnPosition_get (tc : TweetCache) (i : Nat) (tw : Tweet)
    (h : tc.tweets.get? i = some tw) :
    tc.GetOnPosition (i : Int) = .ok (tw.text ++ "\n\n" ++ tw.user.name) := by
  have hi : i < tc.tweets.length := by
    by_contra hge
    push_neg at hge
    rw [List.get?_eq_none.mpr hge] at h
    exact Option.noConfusion h
  have hg : ¬ (tc.tweets.length = 0 ∨ (tc.tweets.length : Int) - 1 < (i : Int)) := by
    push_neg
    refine ⟨by omega, by omega⟩
  unfold TweetCache.GetOnPosition goIndex
  rw [if_neg hg, if_pos (Int.natCast_nonneg i), Int.toNat_natCast, h]

/-- Evaluating `GetOnPosition` at a natural index at or beyond the snapshot length
returns the not-available error. -/
theorem getOnPosition_oob (tc : TweetCache) (i : Nat)
    (h : tc.tweets.length ≤ i) :
    tc.GetOnPosition (i : Int) = .err "twit not available" := by
  have hg : tc.tweets.length = 0 ∨ (tc.tweets.length : Int) - 1 < (i : Int) := by
    right; omega
  unfold TweetCache.GetOnPosition
  rw [if_pos hg]

/-- Evaluating `GetOnPosition` at a negative index: the not-available error on an
empty snapshot, otherwise a runtime panic (`tc.Tweets[pos]` with a
negative index). -/
theorem getOnPosition_neg (tc : TweetCache) (i : Int) (h : i < 0) :
    tc.GetOnPosition i =
      (if tc.tweets.length = 0 then GetResult.err "twit not available"
       else GetResult.crash) := by
  unfold TweetCache.GetOnPosition goIndex
  by_cases h0 : tc.tweets.length = 0
  · rw [if_pos (Or.inl h0), if_pos h0]
  · have hg : ¬ (tc.tweets.length = 0 ∨ (tc.tweets.length : Int) - 1 < i) := by
      push_neg
      refine ⟨h0, by omega⟩
    rw [if_neg hg, if_neg (by omega : ¬ (0:Int) ≤ i), if_neg h0]

/-- Lemma: `Handle` on the `/` path renders the tweet at position 0. -/
theorem handle_root (rh : RequestHandler) (q : List String) :
    rh.Handle ⟨"/", q⟩ = rh.showTweet 0 := by
  simp [RequestHandler.Handle]

/-- Lemma: `Handle` on the `/timeline` path renders the timeline. -/
theorem handle_timeline_page (rh : RequestHandler) (q : List String) :
    rh.Handle ⟨"/timeline", q⟩ = rh.showTimeline := by
  simp [RequestHandler.Handle]

/-- Lemma: `Handle` on the `/select_tweet` path: prompt on an empty query,
otherwise parse the first key and either complain or render. -/
theorem handle_select_tweet (rh : RequestHandler) (keys : List String) :
    rh.Handle ⟨"/select_tweet", keys⟩ =
      (if keys = [] then some ⟨10, "Get tweet offset. f.e. 5", none⟩
       else
         match goAtoi (getFirstKeyFromURL keys) with
         | none => some ⟨42, "Failed to parse input. Please use numbers.", none⟩
         | some offset => rh.showTweet offset) := by
  by_cases h : keys = []
  · subst h
    simp [RequestHandler.Handle]
  · simp [RequestHandler.Handle, h]

/-- Lemma: `Handle` on any other path returns the not-found response. -/
theorem handle_unknown (rh : RequestHandler) (r : Request)
    (h1 : r.path ≠ "/") (h2 : r.path ≠ "/timeline")
    (h3 : r.path ≠ "/select_tweet") :
    rh.Handle r = some ⟨51, "Unknown location", none⟩ := by
  simp [RequestHandler.Handle, h1, h2, h3]

/-- Lemma: `showTweet` at a non-negative offset always yields the success
response around some wrapped body (no panic is possible there). -/
theorem showTweet_nonneg (rh : RequestHandler) (n : Int) (h : 0 ≤ n) :
    ∃ b, rh.showTweet n = some ⟨20, "text/gemini", some (rh.wrapBody b)⟩ := by
  obtain ⟨i, rfl⟩ := Int.eq_ofNat_of_zero_le h
  unfold RequestHandler.showTweet RequestHandler.formatTweet
  cases hg : rh.tweetCache.tweets.get? i with
  | some tw =>
    rw [getOnPosition_get rh.tweetCache i tw hg]
    exact ⟨_, rfl⟩
  | none =>
    rw [getOnPosition_oob rh.tweetCache i (List.get?_eq_none.mp hg)]
    exact ⟨"", rfl⟩

/-- Lemma: `showTweet` at a negative offset on an empty cache: the guard catches
the empty slice first, so the page renders with empty content. -/
theorem showTweet_neg_empty (rh : RequestHandler) (n : Int) (hn : n < 0)
    (h0 : rh.tweetCache.tweets = []) :
    rh.showTweet n = some ⟨20, "text/gemini", some (rh.wrapBody "")⟩ := by
  unfold RequestHandler.showTweet RequestHandler.formatTweet
  rw [getOnPosition_neg rh.tweetCache n hn, if_pos (by rw [h0]; rfl)]

/-- Lemma: `showTweet` at a negative offset on a non-empty cache panics:
`tc.Tweets[pos]` is evaluated with a negative index. -/
theorem showTweet_neg_nonempty (rh : RequestHandler) (n : Int) (hn : n < 0)
    (h0 : rh.tweetCache.tweets ≠ []) :
    rh.showTweet n = none := by
  unfold RequestHandler.showTweet RequestHandler.formatTweet
  rw [getOnPosition_neg rh.tweetCache n hn,
      if_neg (fun hl => h0 (List.length_eq_zero.mp hl))]

/-- Lemma: `timelineStep` on a live accumulator: append the rendered entry when
the position is cached, otherwise leave the accumulator alone. -/
theorem timelineStep_some (tc : TweetCache) (delim : String) (s : String)
    (i : Nat) :
    timelineStep tc delim (some s) i =
      (match tc.tweets.get? i with
       | some tw => some (s ++ renderEntry delim tw)
       | none => some s) := by
  cases hg : tc.tweets.get? i with
  | some tw =>
    unfold timelineStep
    rw [getOnPosition_get tc i tw hg]
    rfl
  | none =>
    unfold timelineStep
    rw [getOnPosition_oob tc i (List.get?_eq_none.mp hg)]

/-- The first `k` iterations of the timeline loop append exactly the
renderings of the first `k` cached tweets (skipped positions contribute
nothing). -/
theorem timeline_fold (tc : TweetCache) (delim : String) (k : Nat)
    (s : String) :
    (List.range k).foldl (timelineStep tc delim) (some s) =
      some ((tc.tweets.take k).foldl
        (fun acc tw => acc ++ renderEntry delim tw) s) := by
  induction k with
  | zero => rfl
  | succ k ih =>
    rw [List.range_succ, List.foldl_append, ih]
    simp only [List.foldl_cons, List.foldl_nil]
    rw [timelineStep_some, List.take_succ]
    simp only [List.get?_eq_getElem?]
    cases hk : tc.tweets[k]? with
    | none => simp
    | some tw =>
      rw [List.foldl_append]
      simp

/-- Lemma: `formatTimeline` in closed form: fold the renderings of the first ten
cached tweets. -/
theorem formatTimeline_eq (rh : RequestHandler) :
    rh.formatTimeline =
      some ((rh.tweetCache.tweets.take 10).foldl
        (fun acc tw => acc ++ renderEntry rh.delimiter tw) "") :=
  timeline_fold rh.tweetCache rh.delimiter 10 ""

/-- Joining mapped renderings is the same left fold the loop performs. -/
theorem join_map_foldl (f : Tweet → String) (l : List Tweet) :
    String.join (l.map f) = l.foldl (fun acc tw => acc ++ f tw) "" := by
  unfold String.join
  exact List.foldl_map f (fun r s => r ++ s) l ""

/-- C5: with `n` cached items the rendered timeline body is exactly the
renderings of the first `min 10 n` items — each rendered tweet followed by
the configured delimiter, no placeholders for missing positions — so the
timeline never includes more than 10 items, and rendering never fails
(in particular not when fewer than 10 items are cached). -/
theorem formatTimeline_spec (rh : RequestHandler) :
    rh.formatTimeline =
      some (String.join
        ((rh.tweetCache.tweets.take 10).map (renderEntry rh.delimiter))) ∧
    ((rh.tweetCache.tweets.take 10).map (renderEntry rh.delimiter)).length =
      min 10 rh.tweetCache.tweets.length := by
  constructor
  · rw [formatTimeline_eq, join_map_foldl]
  · simp [List.length_take]

/-- Lemma: `showTimeline` always succeeds with the success status around the
wrapped timeline body. -/
theorem showTimeline_shape (rh : RequestHandler) :
    ∃ b, rh.showTimeline = some ⟨20, "text/gemini", some (rh.wrapBody b)⟩ := by
  unfold RequestHandler.showTimeline
  rw [formatTimeline_eq]
  exact ⟨_, rfl⟩

/-- A single refresh iteration never shrinks the cached tweet count. -/
theorem refreshStep_length_mono (tc : TweetCache) (now : Nat)
    (fetch : FetchResult) :
    tc.tweets.length ≤ (refreshStep tc now fetch).1.tweets.length := by
  unfold refreshStep
  by_cases h : now - tc.lastRefresh < fifteenMinutes
  · rw [if_pos h]
  · rw [if_neg h]
    cases fetch with
    | fetchErr => exact le_refl _
    | fetchOk tweets =>
      by_cases hlen : tweets.length < tc.tweets.length
      · simp [hlen]
      · simp [hlen]
        omega

/-- C4: snapshot replacement is monotonic in item count — every iteration
(and hence any run of the refresh loop) yields a snapshot at least as long
as the previous one, and a fetch result with fewer items than currently
cached never becomes the snapshot and leaves the whole cache state
(including `lastRefresh`) unchanged. -/
theorem refresh_monotonic (tc : TweetCache)
    (events : List (Nat × FetchResult)) :
    (∀ now fetch,
      tc.tweets.length ≤ (refreshStep tc now fetch).1.tweets.length) ∧
    tc.tweets.length ≤ (runRefresher tc events).tweets.length ∧
    (∀ now ts, ts.length < tc.tweets.length →
      (refreshStep tc now (.fetchOk ts)).1 = tc) := by
  refine ⟨fun now fetch => refreshStep_length_mono tc now fetch, ?_, ?_⟩
  · induction events generalizing tc with
    | nil => exact le_refl _
    | cons ev evs ih =>
      exact Nat.le_trans (refreshStep_length_mono tc ev.1 ev.2)
        (ih (refreshStep tc ev.1 ev.2).1)
  · intro now ts hlt
    unfold refreshStep
    by_cases h : now - tc.lastRefresh < fifteenMinutes
    · rw [if_pos h]
    · rw [if_neg h]
      simp [hlt]

/-- C4 witness: a one-tweet cache rejects an empty fetch result wholesale. -/
theorem refresh_monotonic_witness :
    (refreshStep tcOne fifteenMinutes (FetchResult.fetchOk [])).1 = tcOne :=
  (refresh_monotonic tcOne []).2.2 fifteenMinutes [] (by decide)

/-- C6: when a due fetch attempt errors, the cache state — snapshot and
`lastRefresh` — is unchanged, and the iteration ends in the 5-minute
cooldown sleep, so the next attempt happens no sooner than the cooldown
window. -/
theorem refresh_error_cooldown (tc : TweetCache) (now : Nat)
    (h : fifteenMinutes ≤ now - tc.lastRefresh) :
    refreshStep tc now .fetchErr = (tc, .sleepCooldown) ∧
    (refreshStep tc now .fetchErr).1 = tc ∧
    (refreshStep tc now .fetchErr).2.pause = fiveMinutes := by
  have hmain : refreshStep tc now .fetchErr = (tc, .sleepCooldown) := by
    unfold refreshStep
    rw [if_neg (Nat.not_lt.mpr h)]
  exact ⟨hmain, by rw [hmain], by rw [hmain]; rfl⟩

/-- C6 witness: the first due iteration over a one-tweet cache, erroring. -/
theorem refresh_error_cooldown_witness :
    refreshStep tcOne fifteenMinutes FetchResult.fetchErr =
      (tcOne, RefreshAction.sleepCooldown) :=
  (refresh_error_cooldown tcOne fifteenMinutes (by decide)).1

/-- C8 (code bug): when less than 15 minutes have elapsed since the last
refresh, the iteration attempts no fetch — but it realizes the wait as an
immediate `continue` with zero pause, a busy spin, not the sleeping or
yielding pause the specification requires. -/
theorem refresh_busy_spin (tc : TweetCache) (now : Nat)
    (fetch : FetchResult) (h : now - tc.lastRefresh < fifteenMinutes) :
    refreshStep tc now fetch = (tc, .spin) ∧
    RefreshAction.spin.fetchAttempted = false ∧
    RefreshAction.spin.pause = 0 := by
  refine ⟨?_, rfl, rfl⟩
  unfold refreshStep
  rw [if_pos h]

/-- C8 witness: an iteration at time 0 over a fresh cache spins. -/
theorem refresh_busy_spin_witness :
    refreshStep tcOne 0 FetchResult.fetchErr = (tcOne, RefreshAction.spin) :=
  (refresh_busy_spin tcOne 0 FetchResult.fetchErr (by decide)).1

/-- C9: when the configured logo file is absent the header uses the empty
string as the logo while still carrying the fixed menu of links, and the
handler behaves on every request exactly as it would with an empty logo —
the missing file never surfaces as an error or failed response. -/
theorem missing_logo_header (rh : RequestHandler) (r : Request) :
    RequestHandler.getHeader ⟨rh.tweetCache, none, rh.delimiter⟩ =
      "" ++ menuLinks ∧
    RequestHandler.Handle ⟨rh.tweetCache, none, rh.delimiter⟩ r =
      RequestHandler.Handle ⟨rh.tweetCache, some "", rh.delimiter⟩ r := by
  exact ⟨rfl, rfl⟩

/-- C3: for every non-negative position, `GetOnPosition` succeeds — with
the tweet text and author name joined by a blank line — exactly when the
position is strictly below the snapshot length, and otherwise fails with
the not-available error. -/
theorem getOnPosition_spec (tc : TweetCache) (pos : Nat) :
    ((∃ s, tc.GetOnPosition (pos : Int) = .ok s) ↔ pos < tc.tweets.length) ∧
    (∀ tw, tc.tweets.get? pos = some tw →
      tc.GetOnPosition (pos : Int) = .ok (tw.text ++ "\n\n" ++ tw.user.name)) ∧
    (tc.tweets.length ≤ pos →
      tc.GetOnPosition (pos : Int) = .err "twit not available") := by
  refine ⟨⟨?_, ?_⟩, fun tw htw => getOnPosition_get tc pos tw htw,
    fun hle => getOnPosition_oob tc pos hle⟩
  · rintro ⟨s, hs⟩
    by_contra hge
    push_neg at hge
    rw [getOnPosition_oob tc pos hge] at hs
    exact GetResult.noConfusion hs
  · intro hlt
    exact ⟨_, getOnPosition_get tc pos _ (List.get?_eq_get hlt)⟩

/-- C3 witness: position 0 of a one-tweet cache. -/
theorem getOnPosition_spec_witness :
    tcOne.GetOnPosition ((0 : Nat) : Int) =
      .ok (sampleTweet.text ++ "\n\n" ++ sampleTweet.user.name) :=
  (getOnPosition_spec tcOne 0).2.1 sampleTweet rfl

/-- C1 (code bug): `/select_tweet` with the single query key `-1` against
a one-tweet cache makes `Handle` evaluate `tc.Tweets[-1]`, a runtime panic
— no response of any shape is produced. -/
theorem handle_negative_offset_panics :
    rhOne.Handle ⟨"/select_tweet", ["-1"]⟩ = none := by decide

/-- C2 counterexample: the key `-1` is not a valid non-negative integer,
yet against an empty cache `Handle` answers the success page (status 20),
not the parse-error response. -/
theorem select_tweet_negative_counterexample :
    rhEmpty.Handle ⟨"/select_tweet", ["-1"]⟩ =
      some ⟨20, "text/gemini", some (rhEmpty.wrapBody "")⟩ ∧
    (⟨20, "text/gemini", some (rhEmpty.wrapBody "")⟩ : Response) ≠
      ⟨42, "Failed to parse input. Please use numbers.", none⟩ := by
  exact ⟨by decide, by decide⟩

/-- C2 (amended): on `/select_tweet`, no query gives the input prompt; a
first key that `strconv.Atoi` rejects gives the parse-error response; a
first key parsing as an integer `n` — negative values included — hands `n`
to the single-item page, which yields the success response whenever
`n ≥ 0`. -/
theorem select_tweet_routing (rh : RequestHandler) (keys : List String) :
    (keys = [] → rh.Handle ⟨"/select_tweet", keys⟩ =
      some ⟨10, "Get tweet offset. f.e. 5", none⟩) ∧
    (keys ≠ [] → goAtoi (getFirstKeyFromURL keys) = none →
      rh.Handle ⟨"/select_tweet", keys⟩ =
        some ⟨42, "Failed to parse input. Please use numbers.", none⟩) ∧
    (∀ n : Int, keys ≠ [] → goAtoi (getFirstKeyFromURL keys) = some n →
      rh.Handle ⟨"/select_tweet", keys⟩ = rh.showTweet n ∧
      (0 ≤ n → ∃ b, rh.Handle ⟨"/select_tweet", keys⟩ =
        some ⟨20, "text/gemini", some (rh.wrapBody b)⟩)) := by
  refine ⟨?_, ?_, ?_⟩
  · rintro rfl
    rw [handle_select_tweet, if_pos rfl]
  · intro hne hatoi
    rw [handle_select_tweet, if_neg hne, hatoi]
  · intro n hne hatoi
    have hh : rh.Handle ⟨"/select_tweet", keys⟩ = rh.showTweet n := by
      rw [handle_select_tweet, if_neg hne, hatoi]
    refine ⟨hh, fun hn => ?_⟩
    obtain ⟨b, hb⟩ := showTweet_nonneg rh n hn
    exact ⟨b, by rw [hh, hb]⟩

/-- C2 witness: an empty query yields the input prompt. -/
theorem select_tweet_routing_witness :
    rhEmpty.Handle ⟨"/select_tweet", []⟩ =
      some ⟨10, "Get tweet offset. f.e. 5", none⟩ :=
  (select_tweet_routing rhEmpty []).1 rfl

/-- C7: whenever the requested single-item position is unavailable — the
cache is empty, or the non-negative position is at or beyond the cached
count — the page still comes back with the success status and a body that
is exactly the header followed by the footer (empty content section),
never a protocol error: stated for `/` on an empty cache, for `showTweet`
at any unavailable position over any cache, and for `/select_tweet` with
a first key parsing to any unavailable position. -/
theorem empty_cache_root_page (rh : RequestHandler) (q : List String) :
    (rh.tweetCache.tweets = [] → rh.Handle ⟨"/", q⟩ =
      some ⟨20, "text/gemini", some (rh.getHeader ++ rh.getFooter)⟩) ∧
    (∀ pos : Nat, rh.tweetCache.tweets.length ≤ pos →
      rh.showTweet (pos : Int) =
        some ⟨20, "text/gemini", some (rh.getHeader ++ rh.getFooter)⟩) ∧
    (∀ (keys : List String) (pos : Nat), rh.tweetCache.tweets.length ≤ pos →
      goAtoi (getFirstKeyFromURL keys) = some ((pos : Nat) : Int) →
      keys ≠ [] →
      rh.Handle ⟨"/select_tweet", keys⟩ =
        some ⟨20, "text/gemini", some (rh.getHeader ++ rh.getFooter)⟩) := by
  have hwrap : rh.wrapBody "" = rh.getHeader ++ rh.getFooter := by
    unfold RequestHandler.wrapBody
    rw [String.append_empty]
  have hbody : ∀ pos : Nat, rh.tweetCache.tweets.length ≤ pos →
      rh.showTweet (pos : Int) =
        some ⟨20, "text/gemini", some (rh.getHeader ++ rh.getFooter)⟩ := by
    intro pos hle
    unfold RequestHandler.showTweet RequestHandler.formatTweet
    rw [getOnPosition_oob rh.tweetCache pos hle]
    show some (⟨20, "text/gemini", some (rh.wrapBody "")⟩ : Response) =
      some ⟨20, "text/gemini", some (rh.getHeader ++ rh.getFooter)⟩
    rw [hwrap]
  refine ⟨?_, hbody, ?_⟩
  · intro h
    rw [handle_root]
    exact hbody 0 (by rw [h]; exact Nat.zero_le 0)
  · intro keys pos hle hatoi hne
    rw [handle_select_tweet, if_neg hne, hatoi]
    exact hbody pos hle

/-- C7 witness: the empty-cache handler answering `/`, and the one-tweet
handler answering `/select_tweet` at the unavailable offset 7. -/
theorem empty_cache_root_page_witness :
    rhEmpty.Handle ⟨"/", []⟩ =
      some ⟨20, "text/gemini", some (rhEmpty.getHeader ++ rhEmpty.getFooter)⟩ ∧
    rhOne.Handle ⟨"/select_tweet", ["7"]⟩ =
      some ⟨20, "text/gemini", some (rhOne.getHeader ++ rhOne.getFooter)⟩ :=
  ⟨(empty_cache_root_page rhEmpty []).1 rfl,
   (empty_cache_root_page rhOne []).2.2 ["7"] 7
     (by decide) (by decide) (by decide)⟩

/-- Trichotomy for `showTweet` over an arbitrary `int` offset: either the
success page, or — exactly when the offset is negative and the cache
non-empty — a panic. -/
theorem showTweet_cases (rh : RequestHandler) (n : Int) :
    (∃ b, rh.showTweet n = some ⟨20, "text/gemini", some (rh.wrapBody b)⟩) ∨
    (rh.showTweet n = none ∧ n < 0 ∧ rh.tweetCache.tweets ≠ []) := by
  by_cases hn : 0 ≤ n
  · exact Or.inl (showTweet_nonneg rh n hn)
  · push_neg at hn
    by_cases h0 : rh.tweetCache.tweets = []
    · exact Or.inl ⟨"", showTweet_neg_empty rh n hn h0⟩
    · exact Or.inr ⟨showTweet_neg_nonempty rh n hn h0, hn, h0⟩

/-- Exhaustive disjunction of everything `Handle` can do, with the
conditions under which each outcome arises. -/
theorem handle_cases (rh : RequestHandler) (r : Request) :
    (∃ b, rh.Handle r = some ⟨20, "text/gemini", some (rh.wrapBody b)⟩) ∨
    (rh.Handle r = some ⟨10, "Get tweet offset. f.e. 5", none⟩ ∧
      r.path = "/select_tweet" ∧ r.queryKeys = []) ∨
    (rh.Handle r = some ⟨42, "Failed to parse input. Please use numbers.", none⟩) ∨
    (rh.Handle r = some ⟨51, "Unknown location", none⟩) ∨
    (rh.Handle r = none ∧ r.path = "/select_tweet" ∧ r.queryKeys ≠ [] ∧
      ∃ n : Int, goAtoi (getFirstKeyFromURL r.queryKeys) = some n ∧ n < 0 ∧
        rh.tweetCache.tweets ≠ []) := by
  obtain ⟨p, keys⟩ := r
  by_cases h1 : p = "/"
  · subst h1
    rcases showTweet_cases rh 0 with ⟨b, hb⟩ | ⟨_, hneg, _⟩
    · exact Or.inl ⟨b, by rw [handle_root, hb]⟩
    · exact absurd hneg (lt_irrefl 0)
  · by_cases h2 : p = "/timeline"
    · subst h2
      obtain ⟨b, hb⟩ := showTimeline_shape rh
      exact Or.inl ⟨b, by rw [handle_timeline_page, hb]⟩
    · by_cases h3 : p = "/select_tweet"
      · subst h3
        by_cases hk : keys = []
        · subst hk
          refine Or.inr (Or.inl ⟨?_, rfl, rfl⟩)
          rw [handle_select_tweet]
          simp
        · cases ha : goAtoi (getFirstKeyFromURL keys) with
          | none =>
            refine Or.inr (Or.inr (Or.inl ?_))
            rw [handle_select_tweet, if_neg hk, ha]
          | some n =>
            have hh : rh.Handle ⟨"/select_tweet", keys⟩ = rh.showTweet n := by
              rw [handle_select_tweet, if_neg hk, ha]
            rcases showTweet_cases rh n with ⟨b, hb⟩ | ⟨hnone, hneg, hne⟩
            · exact Or.inl ⟨b, by rw [hh, hb]⟩
            · exact Or.inr (Or.inr (Or.inr (Or.inr
                ⟨by rw [hh, hnone], rfl, hk, n, rfl, hneg, hne⟩)))
      · exact Or.inr (Or.inr (Or.inr (Or.inl
          (handle_unknown rh ⟨p, keys⟩ h1 h2 h3))))

/-- C10 counterexample: `/select_tweet` with the single key `-2` against a
one-tweet cache produces no response at all — the request dies in a panic
rather than any of the documented status codes. -/
theorem no_response_on_negative_offset :
    rhOne.Handle ⟨"/select_tweet", ["-2"]⟩ = none := by decide

/-- C10 (amended): every response `Handle` actually emits is one of the
four documented shapes — 20/"text/gemini" with a body, 10 with the offset
prompt, 42 with the parse-error text, or 51/"Unknown location", the last
for every path other than the three routes; but on `/select_tweet` with a
first key parsing to a negative integer and a non-empty cache, `Handle`
panics and emits no response at all. -/
theorem handle_response_codes (rh : RequestHandler) (r : Request) :
    (∀ resp, rh.Handle r = some resp →
      (resp.status = 20 ∧ resp.meta = "text/gemini" ∧ resp.body.isSome = true) ∨
      (resp.status = 10 ∧ resp.meta = "Get tweet offset. f.e. 5" ∧
        resp.body = none) ∨
      (resp.status = 42 ∧ resp.meta = "Failed to parse input. Please use numbers." ∧
        resp.body = none) ∨
      (resp.status = 51 ∧ resp.meta = "Unknown location" ∧ resp.body = none)) ∧
    (r.path ≠ "/" → r.path ≠ "/timeline" → r.path ≠ "/select_tweet" →
      rh.Handle r = some ⟨51, "Unknown location", none⟩) ∧
    (rh.Handle r = none →
      r.path = "/select_tweet" ∧ r.queryKeys ≠ [] ∧
      ∃ n : Int, goAtoi (getFirstKeyFromURL r.queryKeys) = some n ∧ n < 0 ∧
        rh.tweetCache.tweets ≠ []) := by
  refine ⟨?_, fun h1 h2 h3 => handle_unknown rh r h1 h2 h3, ?_⟩
  · intro resp hresp
    rcases handle_cases rh r with ⟨b, hb⟩ | ⟨hb, _, _⟩ | hb | hb | ⟨hb, _⟩
    · rw [hb] at hresp
      obtain rfl := Option.some.inj hresp
      left
      exact ⟨rfl, rfl, rfl⟩
    · rw [hb] at hresp
      obtain rfl := Option.some.inj hresp
      right; left
      exact ⟨rfl, rfl, rfl⟩
    · rw [hb] at hresp
      obtain rfl := Option.some.inj hresp
      right; right; left
      exact ⟨rfl, rfl, rfl⟩
    · rw [hb] at hresp
      obtain rfl := Option.some.inj hresp
      right; right; right
      exact ⟨rfl, rfl, rfl⟩
    · rw [hb] at hresp
      exact Option.noConfusion hresp
  · intro hnone
    rcases handle_cases rh r with ⟨b, hb⟩ | ⟨hb, _, _⟩ | hb | hb |
      ⟨hb, hpath, hkeys, hex⟩
    · rw [hb] at hnone
      exact Option.noConfusion hnone
    · rw [hb] at hnone
      exact Option.noConfusion hnone
    · rw [hb] at hnone
      exact Option.noConfusion hnone
    · rw [hb] at hnone
      exact Option.noConfusion hnone
    · exact ⟨hpath, hkeys, hex⟩

/-- C10 witness: an unknown path yields the 51 not-found response. -/
theorem handle_response_codes_witness :
    rhOne.Handle ⟨"/nowhere", []⟩ = some ⟨51, "Unknown location", none⟩ :=
  (handle_response_codes rhOne ⟨"/nowhere", []⟩).2.1
    (by decide) (by decide) (by decide)
